import Mathlib

/-!
Shallow embedding of the BFX (BeatForge) pipeline, translated from the
Python sources:

* `src/beatforge/playlist.py`  — engagement scorer, safe-title sanitizer,
  per-item metadata loop (`fetch_entries`);
* `src/beatforge/bpm.py`       — tempo bucket generator and resolver;
* `src/beatforge/config.py`    — shipped configuration constants;
* `src/main.py`                — orchestrator (`BeatForgeRunner.run`):
  curated selection, store-based candidate dropping, per-candidate
  download/analyze/convert loop;
* `src/beatforge/persistence.py` — `get_processed_urls`.

Modelling conventions: Python strings are `List Char` (Unicode code
points); Python `float` values are embedded as real numbers (`ℝ`) where
the code computes with logarithms, and as exact rationals (`ℚ`) where
only ordering and field arithmetic matter; Python `int` is `ℤ`/`ℕ`; a
raised exception is the `none`/`Except.error` branch of the returned
value.
-/

namespace BFX

/-! ## Configuration constants, from `src/beatforge/config.py`. -/

/-- BPM_RANGE_START from config.py. -/
def BPM_RANGE_START : ℚ := 105

/-- BPM_RANGE_END from config.py. -/
def BPM_RANGE_END : ℚ := 210

/-- BPM_INTERVAL_SIZE from config.py. -/
def BPM_INTERVAL_SIZE : ℚ := 10

/-- BPM_TARGET_OFFSET from config.py: BPM_INTERVAL_SIZE * 3/4, which is
the rational 15/2 = 7.5 (Python true division). -/
def BPM_TARGET_OFFSET : ℚ := BPM_INTERVAL_SIZE * 3 / 4

/-- BPM_EXTREMES_MULTIPLIER from config.py. -/
def BPM_EXTREMES_MULTIPLIER : ℚ := 2

/-! ## Tempo bucket generator and resolver, from `src/beatforge/bpm.py`. -/

/-- Python built-in int() applied to a rational value: truncation toward
zero (ceiling for negative arguments, floor otherwise). -/
def pyInt (q : ℚ) : ℤ := if q < 0 then ⌈q⌉ else ⌊q⌋

/-- The while loop body of BPMAnalyzer._generate_ranges: starting at
`start`, while start < maxB emit the bucket
(start, start + interval, int (start + offset)) and advance by
`interval`.  The loop is unrolled on an explicit fuel counter; with the
shipped configuration the loop runs 11 times, so any fuel of at least 11
yields the exact list the Python loop builds. -/
def generate_ranges_aux (interval offset maxB : ℚ) : ℚ → ℕ → List (ℚ × ℚ × ℤ)
  | _, 0 => []
  | start, fuel + 1 =>
    if start < maxB then
      (start, start + interval, pyInt (start + offset)) ::
        generate_ranges_aux interval offset maxB (start + interval) fuel
    else []

/-- BPMAnalyzer.bpm_ranges: the bucket list generated from the shipped
configuration constants (fuel 64 is far beyond the 11 iterations the
loop performs). -/
def bpm_ranges : List (ℚ × ℚ × ℤ) :=
  generate_ranges_aux BPM_INTERVAL_SIZE BPM_TARGET_OFFSET BPM_RANGE_END BPM_RANGE_START 64

/-- BPMAnalyzer.choose_target: return the target of the first bucket
whose half-open interval [low, high) contains the tempo; `none` models
the ValueError raised when no bucket matches. -/
def choose_target (ranges : List (ℚ × ℚ × ℤ)) (bpm : ℚ) : Option ℤ :=
  match ranges with
  | [] => none
  | (low, high, target) :: rest =>
    if low ≤ bpm ∧ bpm < high then some target else choose_target rest bpm

/-! ## Engagement scorer, from
`PlaylistManager.compute_engagement_scores` in
`src/beatforge/playlist.py`.  The three counts are the non-negative
integers the function documents as views, likes and comments; the
floating-point arithmetic of the source is embedded in `ℝ`, with
`math.log1p x = Real.log (1 + x)`. -/

/-- PlaylistManager.compute_engagement_scores, translated line by line
from the source.  Returns (engagement_rate, score_alt, score_log).  The
Python truthiness test `if lc` on the like count is `lc ≠ 0`. -/
noncomputable def compute_engagement_scores (vc lc cc : ℕ) : ℝ × ℝ × ℝ :=
  if vc = 0 then (0.0, 0.0, 0.0)
  else
    let multiplier : ℝ := 10000000
    let comment_rate : ℝ := (cc : ℝ) / (vc : ℝ) * multiplier
    let view_norm : ℝ := (vc : ℝ) / multiplier
    let view_log_norm : ℝ := Real.log (1 + (vc : ℝ)) / Real.log (1 + multiplier)
    let comment_to_like : ℝ :=
      if lc ≠ 0 then (cc : ℝ) / (lc : ℝ) * (multiplier / 100) else 0.0
    let score_alt : ℝ := 0.7 * comment_rate + 0.3 * comment_to_like - 1.0 * view_norm
    let score_log : ℝ := 0.7 * comment_rate + 0.3 * comment_to_like - 1.0 * view_log_norm
    let er : ℝ := (multiplier / 100) * ((lc : ℝ) + (cc : ℝ)) / (vc : ℝ)
    (er, score_alt, score_log)

/-- Reference scorer written from the words of the specification claim:
if views = 0 all three scores are 0; otherwise
engagement_rate = 100000 * (likes + comments) / views,
comment_rate = 10000000 * comments / views,
view_norm = views / 10000000,
view_log_norm = ln (1 + views) / ln (1 + 10000000),
comment_to_like = comments / likes * 100000 when likes > 0 else 0,
score_alt = 0.7 * comment_rate + 0.3 * comment_to_like - 1.0 * view_norm,
score_log = 0.7 * comment_rate + 0.3 * comment_to_like - 1.0 * view_log_norm. -/
noncomputable def engagement_scores_spec (vc lc cc : ℕ) : ℝ × ℝ × ℝ :=
  if vc = 0 then (0, 0, 0)
  else
    let comment_rate : ℝ := 10000000 * (cc : ℝ) / (vc : ℝ)
    let view_norm : ℝ := (vc : ℝ) / 10000000
    let view_log_norm : ℝ := Real.log (1 + (vc : ℝ)) / Real.log (1 + 10000000)
    let comment_to_like : ℝ := if 0 < lc then (cc : ℝ) / (lc : ℝ) * 100000 else 0
    (100000 * ((lc : ℝ) + (cc : ℝ)) / (vc : ℝ),
     0.7 * comment_rate + 0.3 * comment_to_like - 1.0 * view_norm,
     0.7 * comment_rate + 0.3 * comment_to_like - 1.0 * view_log_norm)

/-! ## Safe-title sanitizer, from `PlaylistManager.make_safe_title` in
`src/beatforge/playlist.py`. -/

/-- Characters kept by the regular expression substitution
re.sub of the class complementary to A-Za-z0-9, space and hyphen. -/
def allowedChar (c : Char) : Bool := c.isAlphanum || c == ' ' || c == '-'

/-- Python str.strip on the strings reachable in make_safe_title.  After
the character filter the only whitespace character that can occur is the
ASCII space, so stripping whitespace is stripping spaces. -/
def stripSpaces (s : List Char) : List Char :=
  ((s.dropWhile (fun c => c == ' ')).reverse.dropWhile (fun c => c == ' ')).reverse

/-- Python str.replace of two spaces by one: one left-to-right pass over
non-overlapping occurrences. -/
def collapseDoubleSpace : List Char → List Char
  | ' ' :: ' ' :: rest => ' ' :: collapseDoubleSpace rest
  | c :: rest => c :: collapseDoubleSpace rest
  | [] => []

/-- The inner helper clean of make_safe_title:
re.sub removing characters outside A-Za-z0-9, space, hyphen, then
.strip(), then .replace of double space by single space. -/
def cleanField (s : List Char) : List Char :=
  collapseDoubleSpace (stripSpaces (s.filter allowedChar))

/-- The EN DASH character U+2013 used by make_safe_title as the field
separator in the f-string. -/
def enDash : Char := Char.ofNat 0x2013

/-- PlaylistManager.make_safe_title: clean each of the three fields,
join them with the separator space, en dash, space, strip the result and
truncate to 128 characters. -/
def make_safe_title (title artist album : List Char) : List Char :=
  (stripSpaces
    (cleanField title ++ [' ', enDash, ' '] ++ cleanField artist ++
      [' ', enDash, ' '] ++ cleanField album)).take 128

/-! ## Track records.  A pruned TrackDTO from `src/beatforge/track.py`
holding exactly the fields the formalised claims touch; every field the
dataclass defaults to None is an `Option`.  Score and tempo floats are
embedded as exact rationals.  Two points of the source matter below:
the dataclass declares NO features field (the `features` component here
models the attribute `main.py` attaches dynamically at runtime; `none`
means the attribute has never been assigned, and reading it then raises
AttributeError), and `bpm` is not a field at all but a getter-only
property (no setter), so assigning to it raises AttributeError. -/

structure TrackDTO where
  url : String
  view_count : Option ℤ
  engagement_score_alt : Option ℚ
  engagement_score_log : Option ℚ
  safe_title : Option String
  wav_path : Option String
  bpm_librosa : Option ℚ
  target_bpm : Option ℤ
  features : Option String
deriving DecidableEq

/-! ## Curated selection, from `BeatForgeRunner._select_curated_tracks`
and the selection block of `BeatForgeRunner.run` in `src/main.py`.
Python sorted with a key and reverse=True is a stable descending sort;
it is embedded as the canonical stable sort (insertion sort) under the
same key. -/

/-- Stable insertion of one element into a list sorted descending by
`key`: the element is placed before the first strictly smaller key, so
among equal keys earlier elements stay first. -/
def insertDesc {α κ : Type} [LinearOrder κ] (key : α → κ) (a : α) : List α → List α
  | [] => [a]
  | b :: rest => if key b ≤ key a then a :: b :: rest else b :: insertDesc key a rest

/-- Python sorted with reverse=True under `key`: stable descending
sort. -/
def sortedDesc {α κ : Type} [LinearOrder κ] (key : α → κ) : List α → List α
  | [] => []
  | a :: rest => insertDesc key a (sortedDesc key rest)

/-- BeatForgeRunner._select_curated_tracks: filter out tracks whose
score field is None, sort the rest descending by that score, keep the
first `limit`; once per strategy (score_alt, score_log, view_count).
The key reads the score after the isSome filter, so the default value of
`Option.getD` is never consulted. -/
def select_curated_tracks (tracks : List TrackDTO) (limit : ℕ) :
    List TrackDTO × List TrackDTO × List TrackDTO :=
  let top_alt :=
    (sortedDesc (fun t => t.engagement_score_alt.getD 0)
      (tracks.filter (fun t => t.engagement_score_alt.isSome))).take limit
  let top_log :=
    (sortedDesc (fun t => t.engagement_score_log.getD 0)
      (tracks.filter (fun t => t.engagement_score_log.isSome))).take limit
  let top_viral :=
    (sortedDesc (fun t => t.view_count.getD 0)
      (tracks.filter (fun t => t.view_count.isSome))).take limit
  (top_alt, top_log, top_viral)

/-- The seen-set deduplication loop of BeatForgeRunner.run: keep a track
when its URL has not been seen yet, remembering every URL seen. -/
def dedupGo (seen : List String) : List TrackDTO → List TrackDTO
  | [] => []
  | t :: rest =>
    if t.url ∈ seen then dedupGo seen rest
    else t :: dedupGo (t.url :: seen) rest

/-- The curated branch of BeatForgeRunner.run (process_all_entries
False): anchor tracks[0], the three top lists over tracks[1:], then the
seen-set loop over first + top_alt + top_log + top_viral.  `none` models
the IndexError the source raises on an empty playlist. -/
def curated_selection (tracks : List TrackDTO) (limit : ℕ) : Option (List TrackDTO) :=
  match tracks with
  | [] => none
  | t0 :: rest =>
    let tops := select_curated_tracks rest limit
    some (dedupGo [] ([t0] ++ tops.1 ++ tops.2.1 ++ tops.2.2))

/-- Specification-side description of URL deduplication: keep exactly
the first occurrence of each URL, in first-occurrence order. -/
def firstOccurrenceFilter : List TrackDTO → List TrackDTO
  | [] => []
  | t :: rest =>
    t :: firstOccurrenceFilter (rest.filter (fun s => s.url ≠ t.url))
termination_by l => l.length
decreasing_by
  simp only [List.length_cons, Nat.lt_succ_iff]
  exact List.length_filter_le _ _

/-! ## The per-candidate pipeline loop of `BeatForgeRunner.run`
(`src/main.py`, the Downloading Youtube Songs block).  The external
collaborators (downloader, feature extractor, json dump, analyzer,
converter) are oracle parameters returning `Except`; `Except.error`
models a raised exception. -/

/-- The two Python runtime errors the orchestrator itself produces,
besides exceptions raised by the external collaborators: TypeError from
calling the TrackDTO constructor with the unexpected keyword features
(in load_tracks), and AttributeError from assigning the getter-only
property bpm or reading the never-assigned attribute features. -/
inductive PyFatal where
  | typeError : PyFatal
  | attributeError : PyFatal
deriving DecidableEq

/-- The body of the try block for one track, statement by statement:
wav_path = download_to_wav(url, safe_title); track.wav_path = wav_path
and track.features = extract_all(wav_path) (both attribute writes
succeed, but the enriched object is discarded by the raise below, so
they are not threaded); json dump of the features; raw_bpm =
extract(wav_path); then `track.bpm = raw_bpm` — TrackDTO.bpm is a
getter-only property, so this assignment raises AttributeError for
every candidate.  The choose_target call, the convert call and the
results.append of the source are therefore unreachable; the two oracle
parameters for them are kept to mirror the collaborators the loop body
names, but are never consulted. -/
def process_track_run {ε : Type}
    (download_to_wav : String → Option String → Except ε String)
    (extract_all : String → Except ε String)
    (dump_json : String → String → Except ε Unit)
    (extract : String → Except ε ℚ)
    (chooseTargetOracle : ℚ → Except ε ℤ)
    (convert : TrackDTO → Except ε Unit)
    (t : TrackDTO) : Except (ε ⊕ PyFatal) TrackDTO :=
  match download_to_wav t.url t.safe_title with
  | Except.error e => Except.error (Sum.inl e)
  | Except.ok wav =>
    match extract_all wav with
    | Except.error e => Except.error (Sum.inl e)
    | Except.ok feats =>
      match dump_json wav feats with
      | Except.error e => Except.error (Sum.inl e)
      | Except.ok _ =>
        match extract wav with
        | Except.error e => Except.error (Sum.inl e)
        | Except.ok _raw_bpm => Except.error (Sum.inr PyFatal.attributeError)

/-- Reading the features attribute of a track, as the serialization
loop of BeatForgeRunner.save_tracks does in json.dumps of t.features:
the dataclass has no features field, so on a track never given the
attribute the read raises AttributeError. -/
def pyReadFeatures (t : TrackDTO) : Except PyFatal String :=
  match t.features with
  | none => Except.error PyFatal.attributeError
  | some s => Except.ok s

/-- The per-track serialization of BeatForgeRunner.save_tracks (the
json.dumps of t.features for each track, the only fallible step of the
loop): the first track without the features attribute aborts
save_tracks and with it the whole run, since the call at main.py:353 is
not inside a try block. -/
def save_tracks_features : List TrackDTO → Except PyFatal (List String)
  | [] => Except.ok []
  | t :: rest =>
    match pyReadFeatures t with
    | Except.error e => Except.error e
    | Except.ok s =>
      match save_tracks_features rest with
      | Except.error e => Except.error e
      | Except.ok l => Except.ok (s :: l)

/-- The for loop over unique_tracks: per candidate, run the pipeline in
a try block; on success append the enriched record to results, on any
exception print the error and continue with the next candidate. -/
def run_download_loop {ε : Type}
    (step : TrackDTO → Except ε TrackDTO) : List TrackDTO → List TrackDTO
  | [] => []
  | t :: rest =>
    match step t with
    | Except.ok t2 => t2 :: run_download_loop step rest
    | Except.error _ => run_download_loop step rest

/-- The failure predicate of the per-candidate try block: true when the
pipeline step raises for that candidate. -/
def failed {ε : Type} (step : TrackDTO → Except ε TrackDTO) (t : TrackDTO) : Bool :=
  match step t with
  | Except.ok _ => false
  | Except.error _ => true

/-! ## The persisted stores and the candidate-dropping condition.
Two distinct track_info schemas exist in the repository:
`src/beatforge/persistence.py` creates one with per-oracle tempo
columns (bpm_librosa, bpm_essentia) and offers `get_processed_urls`
over it — functions no other module calls; the playlist database that
`BeatForgeRunner.run` actually reads and writes (via
PlaylistManager.save_tracks_db and BeatForgeRunner.save_tracks in
`src/main.py`) has metadata columns plus features_json, and no tempo
columns at all. -/

/-- One row of the persistence.py track_info schema (the store
`get_processed_urls` queries, reachable from no caller), pruned to the
URL key and the two tempo-analysis columns. -/
structure StoreRow where
  url : String
  bpm_librosa : Option ℚ
  bpm_essentia : Option ℚ
deriving DecidableEq

/-- The fully-processed predicate named by the specification: both tempo
analyses recorded. -/
def fully_processed (r : StoreRow) : Bool :=
  r.bpm_librosa.isSome && r.bpm_essentia.isSome

/-- persistence.get_processed_urls: the URLs of rows where
bpm_librosa IS NOT NULL OR bpm_essentia IS NOT NULL.  This helper is
defined in the repository but never called by the orchestrator. -/
def get_processed_urls (store : List StoreRow) : List String :=
  (store.filter (fun r => r.bpm_librosa.isSome || r.bpm_essentia.isSome)).map
    (fun r => r.url)

/-- Python dictionary assignment on an insertion-ordered association
list: an existing key keeps its position and gets the new value, a new
key is appended. -/
def dictSet : List (String × TrackDTO) → String → TrackDTO → List (String × TrackDTO)
  | [], k, v => [(k, v)]
  | (k0, v0) :: rest, k, v =>
    if k0 = k then (k0, v) :: rest else (k0, v0) :: dictSet rest k v

/-- The candidate-dropping loop of BeatForgeRunner.run over the selected
tracks of one playlist: a track enters all_tracks_by_url only when its
URL is not a key of the dictionary loaded from the store. -/
def add_new_tracks (existingUrls : List String)
    (acc : List (String × TrackDTO)) : List TrackDTO → List (String × TrackDTO)
  | [] => acc
  | t :: rest =>
    if t.url ∈ existingUrls then add_new_tracks existingUrls acc rest
    else add_new_tracks existingUrls (dictSet acc t.url t) rest

/-- One row of the playlist-database track_info table that
BeatForgeRunner.load_tracks SELECTs (the thirteen-column schema its own
save_tracks creates), pruned to the URL key and the features_json
column; no column value influences load_tracks, whose per-row
conversion raises before using them. -/
structure PlaylistRow where
  url : String
  features_json : Option String
deriving DecidableEq

/-- The per-row body of the load_tracks loop: feats is json.loads of
features_json with a try/except default (which cannot fail), and then
TrackDTO(url=..., ..., features=feats) is called.  The dataclass of
track.py accepts no keyword named features, so this constructor call
raises TypeError for every row, whatever the row holds.  (A retained
table written only by PlaylistManager.save_tracks_db lacks the
features_json column entirely, in which case the SELECT itself raises
sqlite3.OperationalError even earlier.) -/
def row_to_track (_r : PlaylistRow) : Except PyFatal TrackDTO :=
  Except.error PyFatal.typeError

/-- The row loop of BeatForgeRunner.load_tracks, building the
url-keyed dictionary; the first row aborts it with the TypeError of
row_to_track. -/
def load_tracks_go (acc : List (String × TrackDTO)) :
    List PlaylistRow → Except PyFatal (List (String × TrackDTO))
  | [] => Except.ok acc
  | r :: rest =>
    match row_to_track r with
    | Except.error e => Except.error e
    | Except.ok t => load_tracks_go (dictSet acc t.url t) rest

/-- BeatForgeRunner.load_tracks over the rows of the retained store: an
absent database or empty table yields the empty dictionary, and any row
raises. -/
def load_tracks (store : List PlaylistRow) : Except PyFatal (List (String × TrackDTO)) :=
  load_tracks_go [] store

/-- The selection prefix of BeatForgeRunner.run for a given selected
track list: load the persisted dictionary (main.py:324, not inside a
try block, so its exception aborts the run) and, when that succeeds,
run the candidate-dropping loop of main.py:347-349 against its keys. -/
def run_selection_phase (store : List PlaylistRow) (selected : List TrackDTO) :
    Except PyFatal (List (String × TrackDTO)) :=
  match load_tracks store with
  | Except.error e => Except.error e
  | Except.ok existing =>
    Except.ok (add_new_tracks (existing.map Prod.fst) [] selected)

/-! ## The per-item metadata loop of `PlaylistManager.fetch_entries`
(`src/beatforge/playlist.py`).  The Python local variable age_weight is
threaded through the loop as an `Option ℝ` (`none` = not yet assigned);
reading an unassigned local raises NameError (UnboundLocalError) and
dividing by a zero float raises ZeroDivisionError. -/

/-- The two Python runtime errors relevant to the age_weight path. -/
inductive PyError where
  | nameError : PyError
  | zeroDivisionError : PyError
deriving DecidableEq

/-- Metadata of one fetched item: meta.get of timestamp or 0 (so a
missing published timestamp is the value 0, which is falsy), and the raw
view, like and comment counts with their or-0 defaults. -/
structure ItemMeta where
  timestamp : ℕ
  view_count : ℕ
  like_count : ℕ
  comment_count : ℕ
deriving DecidableEq

/-- Reading a Python local variable: NameError when it has never been
assigned. -/
def localLookup (v : Option ℝ) : Except PyError ℝ :=
  match v with
  | none => Except.error PyError.nameError
  | some x => Except.ok x

/-- Python float division: ZeroDivisionError on a zero divisor. -/
noncomputable def pyDiv (x w : ℝ) : Except PyError ℝ :=
  if w = 0 then Except.error PyError.zeroDivisionError else Except.ok (x / w)

/-- One iteration of the fetch_entries metadata loop, restricted to the
age-weight paragraph: if the timestamp is truthy, age_days is computed
from the wall clock (abstracted as the oracle `ageDays`) and age_weight
is assigned ln (age_days + 2); otherwise age_weight keeps whatever
binding it had from earlier iterations.  Then the three raw counts are
divided by age_weight.  Returns the scaled counts and the age_weight
binding left for the next iteration. -/
noncomputable def fetch_entry_step (ageDays : ℕ → ℕ) (age_weight : Option ℝ)
    (m : ItemMeta) : Except PyError ((ℝ × ℝ × ℝ) × Option ℝ) := do
  let aw := if m.timestamp ≠ 0
    then some (Real.log ((ageDays m.timestamp : ℝ) + 2))
    else age_weight
  let w ← localLookup aw
  let vc ← pyDiv (m.view_count : ℝ) w
  let lc ← pyDiv (m.like_count : ℝ) w
  let cc ← pyDiv (m.comment_count : ℝ) w
  pure ((vc, lc, cc), aw)

/-! ## Helper lemmas. -/

set_option maxRecDepth 10000 in
/-- Concrete value of the generated bucket list under the shipped
configuration: eleven half-open buckets from 105 to 215 with truncated
targets. -/
theorem bpm_ranges_eq : bpm_ranges =
    [(105, 115, 112), (115, 125, 122), (125, 135, 132), (135, 145, 142),
     (145, 155, 152), (155, 165, 162), (165, 175, 172), (175, 185, 182),
     (185, 195, 192), (195, 205, 202), (205, 215, 212)] := by
  norm_num [bpm_ranges, generate_ranges_aux, pyInt,
    BPM_RANGE_START, BPM_RANGE_END, BPM_INTERVAL_SIZE, BPM_TARGET_OFFSET]

/-- Unfolding lemma for the resolver on the empty bucket list. -/
theorem choose_target_nil (b : ℚ) : choose_target [] b = none := rfl

/-- Unfolding lemma for the resolver on a bucket list head. -/
theorem choose_target_cons (low high : ℚ) (t : ℤ) (rest : List (ℚ × ℚ × ℤ)) (b : ℚ) :
    choose_target ((low, high, t) :: rest) b =
      if low ≤ b ∧ b < high then some t else choose_target rest b := rfl

/-! ## C4: the engagement scorer equals its reference definition. -/

/-- C4: for every (views, likes, comments) the scorer of the source
returns exactly the triple of the reference definition given by the
specification: zero on zero views, and otherwise the documented
engagement_rate, score_alt and score_log formulas with K = 100000 and
the stated comment_rate, view_norm, view_log_norm and comment_to_like
components. -/
theorem compute_engagement_scores_eq_spec (vc lc cc : ℕ) :
    compute_engagement_scores vc lc cc = engagement_scores_spec vc lc cc := by
  unfold compute_engagement_scores engagement_scores_spec
  by_cases h : vc = 0
  · norm_num [h]
  · by_cases hl : lc = 0
    · rw [if_neg h, if_neg h]
      simp only [hl, ne_eq, not_true_eq_false, if_false, Nat.lt_irrefl]
      norm_num
      ring
    · have hl2 : (0 : ℕ) < lc := Nat.pos_of_ne_zero hl
      rw [if_neg h, if_neg h]
      simp only [ne_eq, hl, not_false_eq_true, if_true, if_pos hl2]
      norm_num
      ring

/-! ## C7: the ordering of score_alt and score_log flips between small
and large view counts. -/

/-- C7: score_log is not at least score_alt on all valid inputs, and
neither score is a monotone image of the other: at views = 1 (zero
likes and comments) score_alt exceeds score_log, while at
views = 1000000000 the order is reversed. -/
theorem engagement_scores_ordering_flips :
    (compute_engagement_scores 1 0 0).2.1 > (compute_engagement_scores 1 0 0).2.2 ∧
    (compute_engagement_scores 1000000000 0 0).2.2 >
      (compute_engagement_scores 1000000000 0 0).2.1 := by
  unfold compute_engagement_scores
  norm_num
  have hL : 0 < Real.log 10000001 := Real.log_pos (by norm_num)
  have hlog2 : 0 < Real.log 2 := Real.log_pos (by norm_num)
  have h24 : Real.log 10000001 ≤ 24 * Real.log 2 := by
    calc Real.log 10000001 ≤ Real.log (2 ^ 24) := Real.log_le_log (by norm_num) (by norm_num)
    _ = 24 * Real.log 2 := by rw [Real.log_pow]; norm_num
  have h30 : Real.log 1000000001 ≤ 30 * Real.log 2 := by
    calc Real.log 1000000001 ≤ Real.log (2 ^ 30) := Real.log_le_log (by norm_num) (by norm_num)
    _ = 30 * Real.log 2 := by rw [Real.log_pow]; norm_num
  have h23 : 23 * Real.log 2 ≤ Real.log 10000001 := by
    calc (23 : ℝ) * Real.log 2 = Real.log (2 ^ 23) := by rw [Real.log_pow]; norm_num
    _ ≤ Real.log 10000001 := Real.log_le_log (by norm_num) (by norm_num)
  constructor
  · rw [div_lt_div_iff₀ (by norm_num) hL]
    nlinarith
  · rw [div_lt_iff₀ hL]
    nlinarith

/-! ## C5: bucket resolution at lower edges and at range_end. -/

/-- C5 counterexample: the claim asserts that a tempo exactly equal to
range_end = 210 raises the range error, but the resolver returns the
trailing bucket target 212, because the trailing bucket [205, 215)
contains 210. -/
theorem choose_target_range_end_cex :
    choose_target bpm_ranges BPM_RANGE_END ≠ none ∧
    choose_target bpm_ranges BPM_RANGE_END = some 212 := by
  have h : choose_target bpm_ranges BPM_RANGE_END = some 212 := by
    rw [bpm_ranges_eq]
    norm_num [choose_target, BPM_RANGE_END]
  exact ⟨by rw [h]; exact Option.some_ne_none _, h⟩

/-- C5 amended: every tempo exactly at a generated bucket's lower edge
resolves to that bucket's target (half-open, lower-inclusive), and a
tempo exactly equal to range_end = 210 resolves to the trailing bucket
target 212 rather than to the range error, since the trailing bucket
extends to 215. -/
theorem choose_target_lower_edge_and_range_end :
    (∀ r ∈ bpm_ranges, choose_target bpm_ranges r.1 = some r.2.2) ∧
    choose_target bpm_ranges BPM_RANGE_END = some 212 := by
  constructor
  · rw [bpm_ranges_eq]
    norm_num [choose_target]
  · rw [bpm_ranges_eq]
    norm_num [choose_target, BPM_RANGE_END]

/-- C5 witness: the first bucket's lower edge 105 resolves to its
target 112. -/
theorem choose_target_lower_edge_and_range_end_witness :
    choose_target bpm_ranges ((105 : ℚ), (115 : ℚ), (112 : ℤ)).1 =
      some ((105 : ℚ), (115 : ℚ), (112 : ℤ)).2.2 := by
  exact choose_target_lower_edge_and_range_end.1 ((105 : ℚ), (115 : ℚ), (112 : ℤ))
    (by rw [bpm_ranges_eq]; exact List.mem_cons_self _ _)

/-! ## C6: structure of the generated bucket list. -/

/-- C6 counterexample: the first generated bucket is (105, 115, 112),
and its target 112 differs from start + target_offset = 105 + 7.5 =
112.5, because the source truncates with int(). -/
theorem generate_ranges_target_truncation_cex :
    ((105 : ℚ), (115 : ℚ), (112 : ℤ)) ∈ bpm_ranges ∧
    ((112 : ℤ) : ℚ) ≠ 105 + BPM_TARGET_OFFSET := by
  constructor
  · rw [bpm_ranges_eq]
    exact List.mem_cons_self _ _
  · norm_num [BPM_TARGET_OFFSET, BPM_INTERVAL_SIZE]

/-- C6 amended: the target offset is the rational 7.5 as claimed, the
generator produces the ordered bucket starts 105, 115, ..., 205
stepping by the interval size from range_start while below range_end,
every bucket is the half-open interval [start, start + interval), and
every bucket's target equals int (start + target_offset) = start + 7,
not start + 7.5. -/
theorem generate_ranges_buckets_and_targets :
    BPM_TARGET_OFFSET = 15 / 2 ∧
    bpm_ranges.map (fun r => r.1) =
      [105, 115, 125, 135, 145, 155, 165, 175, 185, 195, 205] ∧
    ∀ r ∈ bpm_ranges, r.2.1 = r.1 + BPM_INTERVAL_SIZE ∧ (r.2.2 : ℚ) = r.1 + 7 := by
  refine ⟨by norm_num [BPM_TARGET_OFFSET, BPM_INTERVAL_SIZE], ?_, ?_⟩
  · rw [bpm_ranges_eq]
    norm_num
  · rw [bpm_ranges_eq]
    norm_num [BPM_INTERVAL_SIZE]

/-- C6 witness: the bucket relation evaluated at the first generated
bucket. -/
theorem generate_ranges_buckets_and_targets_witness :
    ((105 : ℚ), (115 : ℚ), (112 : ℤ)).2.1 =
      ((105 : ℚ), (115 : ℚ), (112 : ℤ)).1 + BPM_INTERVAL_SIZE ∧
    ((((105 : ℚ), (115 : ℚ), (112 : ℤ)).2.2 : ℤ) : ℚ) =
      ((105 : ℚ), (115 : ℚ), (112 : ℤ)).1 + 7 := by
  exact generate_ranges_buckets_and_targets.2.2 ((105 : ℚ), (115 : ℚ), (112 : ℤ))
    (by rw [bpm_ranges_eq]; exact List.mem_cons_self _ _)

/-! ## C10: totality of bucket resolution on the configured range. -/

set_option maxHeartbeats 1000000 in
/-- C10: for every tempo b with range_start = 105 ≤ b ≤ 210 = range_end
the resolver returns some bucket target and the error branch is
unreachable, because the generated buckets tile [105, 215) contiguously
and 215 is the first boundary at or beyond range_end. -/
theorem choose_target_total_on_configured_range (b : ℚ)
    (h1 : BPM_RANGE_START ≤ b) (h2 : b ≤ BPM_RANGE_END) :
    (choose_target bpm_ranges b).isSome := by
  rw [BPM_RANGE_START] at h1
  rw [BPM_RANGE_END] at h2
  rw [bpm_ranges_eq]
  simp only [choose_target_cons, choose_target_nil]
  split_ifs with h3 h4 h5 h6 h7 h8 h9 h10 h11 h12 h13 <;> try simp
  exfalso
  push_neg at h3 h4 h5 h6 h7 h8 h9 h10 h11 h12 h13
  have k1 := h3 h1
  have k2 := h4 k1
  have k3 := h5 k2
  have k4 := h6 k3
  have k5 := h7 k4
  have k6 := h8 k5
  have k7 := h9 k6
  have k8 := h10 k7
  have k9 := h11 k8
  have k10 := h12 k9
  have k11 := h13 k10
  linarith

/-- C10 witness: the resolver succeeds at tempo 120. -/
theorem choose_target_total_on_configured_range_witness :
    (choose_target bpm_ranges 120).isSome := by
  exact choose_target_total_on_configured_range 120
    (by norm_num [BPM_RANGE_START]) (by norm_num [BPM_RANGE_END])

/-! ## C8: length and character set of the sanitized title. -/

/-- The collapse pass only ever shortens the string: its output is a
sublist of its input. -/
theorem collapseDoubleSpace_sublist (l : List Char) : (collapseDoubleSpace l).Sublist l := by
  induction l using collapseDoubleSpace.induct with
  | case1 rest ih =>
    rw [collapseDoubleSpace.eq_1]
    exact (ih.cons₂ ' ').cons ' '
  | case2 c rest h ih =>
    rw [collapseDoubleSpace.eq_2 c rest h]
    exact ih.cons₂ c
  | case3 =>
    rw [collapseDoubleSpace.eq_3]

/-- Stripping preserves membership: every character of the stripped
string occurs in the original. -/
theorem mem_stripSpaces {c : Char} {l : List Char} (h : c ∈ stripSpaces l) : c ∈ l := by
  unfold stripSpaces at h
  rw [List.mem_reverse] at h
  have h2 := (List.dropWhile_sublist (l := (l.dropWhile (fun c => c == ' ')).reverse)
    (fun c => c == ' ')).subset h
  rw [List.mem_reverse] at h2
  exact (List.dropWhile_sublist (fun c => c == ' ')).subset h2

/-- Every character surviving the clean helper is alphanumeric, a space
or a hyphen. -/
theorem mem_cleanField {c : Char} {s : List Char} (h : c ∈ cleanField s) :
    c.isAlphanum = true ∨ c = ' ' ∨ c = '-' := by
  unfold cleanField at h
  have h2 := (collapseDoubleSpace_sublist _).subset h
  have h3 := mem_stripSpaces h2
  have h4 := (List.mem_filter.mp h3).2
  simp only [allowedChar, Bool.or_eq_true, beq_iff_eq] at h4
  rcases h4 with (h4 | h4) | h4
  · exact Or.inl h4
  · exact Or.inr (Or.inl h4)
  · exact Or.inr (Or.inr h4)

/-- Characters of the f-string separator. -/
theorem mem_sep {c : Char} (h : c ∈ [' ', enDash, ' ']) : c = ' ' ∨ c = enDash := by
  rcases List.mem_cons.mp h with h | h
  · exact Or.inl h
  rcases List.mem_cons.mp h with h | h
  · exact Or.inr h
  rcases List.mem_cons.mp h with h | h
  · exact Or.inl h
  · exact absurd h (List.not_mem_nil c)

/-- C8 counterexample: the sanitized title of (a, b, c) contains the en
dash U+2013 placed by the f-string separator, and the en dash is
neither alphanumeric nor a space nor the hyphen-minus, so the output is
not made of those characters only. -/
theorem make_safe_title_en_dash_cex :
    enDash ∈ make_safe_title ['a'] ['b'] ['c'] ∧
    ¬(enDash.isAlphanum = true ∨ enDash = ' ' ∨ enDash = '-') := by
  decide

/-- C8 amended: for every title, artist and album the sanitized title is
at most 128 characters long and every character of it is alphanumeric, a
space, a hyphen-minus, or the en dash U+2013 that the source inserts as
the field separator. -/
theorem make_safe_title_length_and_charset (title artist album : List Char) :
    (make_safe_title title artist album).length ≤ 128 ∧
    ∀ c ∈ make_safe_title title artist album,
      c.isAlphanum = true ∨ c = ' ' ∨ c = '-' ∨ c = enDash := by
  constructor
  · rw [make_safe_title, List.length_take]
    exact min_le_left _ _
  · intro c hc
    have h1 : c ∈ stripSpaces (cleanField title ++ [' ', enDash, ' '] ++ cleanField artist ++
        [' ', enDash, ' '] ++ cleanField album) := List.take_subset _ _ hc
    have h2 := mem_stripSpaces h1
    rcases List.mem_append.mp h2 with h3 | h3
    rotate_left
    · rcases mem_cleanField h3 with h | h | h
      · exact Or.inl h
      · exact Or.inr (Or.inl h)
      · exact Or.inr (Or.inr (Or.inl h))
    rcases List.mem_append.mp h3 with h4 | h4
    rotate_left
    · rcases mem_sep h4 with h | h
      · exact Or.inr (Or.inl h)
      · exact Or.inr (Or.inr (Or.inr h))
    rcases List.mem_append.mp h4 with h5 | h5
    rotate_left
    · rcases mem_cleanField h5 with h | h | h
      · exact Or.inl h
      · exact Or.inr (Or.inl h)
      · exact Or.inr (Or.inr (Or.inl h))
    rcases List.mem_append.mp h5 with h6 | h6
    · rcases mem_cleanField h6 with h | h | h
      · exact Or.inl h
      · exact Or.inr (Or.inl h)
      · exact Or.inr (Or.inr (Or.inl h))
    · rcases mem_sep h6 with h | h
      · exact Or.inr (Or.inl h)
      · exact Or.inr (Or.inr (Or.inr h))

/-- C8 witness: the character a of the sanitized title of (a, , )
satisfies the character-set disjunction. -/
theorem make_safe_title_length_and_charset_witness :
    ('a'.isAlphanum = true ∨ 'a' = ' ' ∨ 'a' = '-' ∨ 'a' = enDash) :=
  (make_safe_title_length_and_charset ['a'] [] []).2 'a' (by decide)

/-! ## C9: the age_weight path on items with no timestamp. -/

/-- C9 counterexample: on the very first item, when it carries no
published timestamp, the metadata step fails with the unbound-local
NameError, which is a different runtime error from the
ZeroDivisionError the claim asserts. -/
theorem fetch_entry_no_timestamp_cex :
    fetch_entry_step (fun _ => 0) none ⟨0, 5, 3, 1⟩ =
      Except.error PyError.nameError ∧
    PyError.nameError ≠ PyError.zeroDivisionError := by
  constructor
  · rw [fetch_entry_step]
    norm_num [localLookup]
    rfl
  · exact fun h => PyError.noConfusion h

/-- C9 amended: when an item has no published timestamp, age_weight is
indeed left unassigned in that iteration (the binding carried out of the
step is unchanged), and if no earlier iteration assigned it the division
of the raw counts fails with the unbound-local NameError, not with a
ZeroDivisionError, and no default weight is applied. -/
theorem fetch_entry_no_timestamp_name_error (ageDays : ℕ → ℕ) (m : ItemMeta)
    (h : m.timestamp = 0) :
    fetch_entry_step ageDays none m = Except.error PyError.nameError := by
  rw [fetch_entry_step, h]
  norm_num [localLookup]
  rfl

/-- C9 witness: the amended statement evaluated on a concrete item with
no timestamp. -/
theorem fetch_entry_no_timestamp_name_error_witness :
    fetch_entry_step (fun _ => 0) none ⟨0, 5, 3, 1⟩ =
      Except.error PyError.nameError :=
  fetch_entry_no_timestamp_name_error (fun _ => 0) ⟨0, 5, 3, 1⟩ rfl

/-! ## C2: per-candidate failure isolation in the pipeline loop. -/

/-- The pipeline loop returns exactly the successful enriched records,
in order. -/
theorem run_download_loop_filterMap {ε : Type} (step : TrackDTO → Except ε TrackDTO)
    (tracks : List TrackDTO) :
    run_download_loop step tracks =
      tracks.filterMap (fun t => (step t).toOption) := by
  induction tracks with
  | nil => rfl
  | cons t rest ih =>
    rw [run_download_loop, List.filterMap_cons]
    cases h : step t with
    | ok t2 => simp [Except.toOption, ih]
    | error e => simp [Except.toOption, ih]

/-- The pipeline loop yields one record per candidate minus one per
failing candidate. -/
theorem run_download_loop_length {ε : Type} (step : TrackDTO → Except ε TrackDTO)
    (tracks : List TrackDTO) :
    (run_download_loop step tracks).length =
      tracks.length - (tracks.filter (failed step)).length := by
  induction tracks with
  | nil => rfl
  | cons t rest ih =>
    have hle := List.length_filter_le (failed step) rest
    rw [run_download_loop, List.filter_cons]
    cases h : step t with
    | ok t2 =>
      have hf : failed step t = false := by rw [failed, h]
      rw [hf]
      simp only [Bool.false_eq_true, if_false, List.length_cons, ih]
      omega
    | error e =>
      have hf : failed step t = true := by rw [failed, h]
      rw [hf]
      simp only [if_true, List.length_cons, ih]
      omega

/-- The faithful loop body never succeeds: whichever way the external
oracles behave, the candidate ends in a raised exception — either one
of the oracles raises first, or the assignment to the getter-only bpm
property raises AttributeError. -/
theorem process_track_run_error {ε : Type}
    (download_to_wav : String → Option String → Except ε String)
    (extract_all : String → Except ε String)
    (dump_json : String → String → Except ε Unit)
    (extract : String → Except ε ℚ)
    (chooseTargetOracle : ℚ → Except ε ℤ)
    (convert : TrackDTO → Except ε Unit)
    (t : TrackDTO) :
    (process_track_run download_to_wav extract_all dump_json extract
      chooseTargetOracle convert t).isOk = false := by
  rw [process_track_run]
  split
  · rfl
  · split
    · rfl
    · split
      · rfl
      · split
        · rfl
        · rfl

/-- C2: the claimed N - K failure isolation is false of the program:
for every choice of the external oracles and every batch, the pipeline
loop returns the empty results list, because `track.bpm = raw_bpm`
raises AttributeError for every candidate (TrackDTO.bpm is a
getter-only property); and the run in fact aborts even earlier, since
the save_tracks serialization reads the features attribute that a
freshly fetched track never has. -/
theorem run_pipeline_no_candidate_succeeds {ε : Type}
    (download_to_wav : String → Option String → Except ε String)
    (extract_all : String → Except ε String)
    (dump_json : String → String → Except ε Unit)
    (extract : String → Except ε ℚ)
    (chooseTargetOracle : ℚ → Except ε ℤ)
    (convert : TrackDTO → Except ε Unit)
    (tracks : List TrackDTO) :
    run_download_loop (process_track_run download_to_wav extract_all dump_json extract
      chooseTargetOracle convert) tracks = [] ∧
    save_tracks_features [⟨"u", none, none, none, none, none, none, none, none⟩] =
      Except.error PyFatal.attributeError := by
  constructor
  · induction tracks with
    | nil => rfl
    | cons t rest ih =>
      have hnot := process_track_run_error download_to_wav extract_all dump_json
        extract chooseTargetOracle convert t
      rw [run_download_loop]
      cases h : process_track_run download_to_wav extract_all dump_json extract
          chooseTargetOracle convert t with
      | ok t2 =>
        rw [h] at hnot
        simp [Except.isOk, Except.toBool] at hnot
      | error e => exact ih
  · rfl

/-! ## C1: which candidates are dropped before the pipeline. -/

/-- Keys after a dictionary assignment: the old keys plus the assigned
key. -/
theorem mem_dictSet_keys (u : String) (acc : List (String × TrackDTO))
    (k : String) (v : TrackDTO) :
    u ∈ (dictSet acc k v).map Prod.fst ↔ u ∈ acc.map Prod.fst ∨ u = k := by
  induction acc with
  | nil => simp [dictSet]
  | cons p rest ih =>
    obtain ⟨k0, v0⟩ := p
    rw [dictSet]
    by_cases h : k0 = k
    · rw [if_pos h]
      subst h
      simp
      tauto
    · rw [if_neg h]
      simp [ih]
      tauto

/-- Keys accumulated by the selection loop: the keys already present
plus every selected URL that is not in the loaded store keys. -/
theorem mem_add_new_tracks_keys (existingUrls : List String) (u : String) :
    ∀ (ts : List TrackDTO) (acc : List (String × TrackDTO)),
      (u ∈ (add_new_tracks existingUrls acc ts).map Prod.fst ↔
        u ∈ acc.map Prod.fst ∨ (u ∈ ts.map TrackDTO.url ∧ u ∉ existingUrls)) := by
  intro ts
  induction ts with
  | nil => simp [add_new_tracks]
  | cons t rest ih =>
    intro acc
    rw [add_new_tracks]
    by_cases h : t.url ∈ existingUrls
    · rw [if_pos h]
      rw [ih acc]
      simp only [List.map_cons, List.mem_cons]
      constructor
      · tauto
      · rintro (ha | ⟨(hu | hu), hn⟩)
        · exact Or.inl ha
        · exact absurd (hu ▸ h) hn
        · exact Or.inr ⟨hu, hn⟩
    · rw [if_neg h]
      rw [ih (dictSet acc t.url t)]
      rw [mem_dictSet_keys]
      simp only [List.map_cons, List.mem_cons]
      constructor
      · rintro ((ha | he) | ⟨hu, hn⟩)
        · exact Or.inl ha
        · exact Or.inr ⟨Or.inl he, he ▸ h⟩
        · exact Or.inr ⟨Or.inr hu, hn⟩
      · rintro (ha | ⟨(hu | hu), hn⟩)
        · exact Or.inl (Or.inl ha)
        · exact Or.inl (Or.inr hu)
        · exact Or.inr ⟨hu, hn⟩

/-- C1 counterexample: with the store retained and holding the single
URL u with no processing recorded (a previously-failed candidate the
claim says is retried), the second run does not retry u: it raises
TypeError while loading the store, before any drop decision or
pipeline call; and the only fully-processed helper in the repository,
get_processed_urls, counts a row with just one analysis (bpm_librosa
set, bpm_essentia missing) as processed — an OR, not the claimed AND
of both tempo analyses. -/
theorem resume_retry_never_happens_cex :
    run_selection_phase [⟨"u", none⟩]
      [⟨"u", none, none, none, none, none, none, none, none⟩] =
      Except.error PyFatal.typeError ∧
    fully_processed ⟨"v", some 120, none⟩ = false ∧
    get_processed_urls [⟨"v", some 120, none⟩] = ["v"] :=
  ⟨rfl, rfl, rfl⟩

/-- C1 amended: no processing-state-conditioned dropping exists.  When
the retained store is empty the selection proceeds and drops nothing
(every selected URL enters the pipeline input); when the retained
store holds any row, the run aborts with the TypeError raised while
load_tracks rebuilds TrackDTO values (the dataclass has no features
field), so every URL — fully processed or failed — incurs zero
pipeline calls and no URL is retried. -/
theorem store_read_crashes_or_drops_nothing (store : List PlaylistRow)
    (selected : List TrackDTO) :
    (store = [] →
      run_selection_phase store selected =
        Except.ok (add_new_tracks [] [] selected) ∧
      ∀ u, u ∈ (add_new_tracks [] [] selected).map Prod.fst ↔
        u ∈ selected.map TrackDTO.url) ∧
    (store ≠ [] →
      run_selection_phase store selected = Except.error PyFatal.typeError) := by
  constructor
  · intro h
    subst h
    constructor
    · rfl
    · intro u
      rw [mem_add_new_tracks_keys]
      simp
  · intro h
    cases store with
    | nil => exact absurd rfl h
    | cons r rest => rfl

/-- C1 witness: both halves of the amended statement exercised at
concrete stores — the empty store proceeds and keeps every selected
URL, the one-row store aborts with TypeError. -/
theorem store_read_crashes_or_drops_nothing_witness :
    (run_selection_phase [] [] = Except.ok (add_new_tracks [] [] []) ∧
      ∀ u, u ∈ (add_new_tracks [] [] ([] : List TrackDTO)).map Prod.fst ↔
        u ∈ ([] : List TrackDTO).map TrackDTO.url) ∧
    run_selection_phase [⟨"w", none⟩] [] = Except.error PyFatal.typeError :=
  ⟨(store_read_crashes_or_drops_nothing [] []).1 rfl,
   (store_read_crashes_or_drops_nothing [⟨"w", none⟩] []).2 (List.cons_ne_nil _ _)⟩

/-! ## C3: shape of the curated selection. -/

/-- The seen-set loop keeps exactly the first occurrence of every URL:
running it with an initial seen set equals first-occurrence filtering of
the tracks whose URL is not initially seen. -/
theorem dedupGo_eq (ts : List TrackDTO) : ∀ (seen : List String),
    dedupGo seen ts =
      firstOccurrenceFilter (ts.filter (fun t => decide (t.url ∉ seen))) := by
  induction ts with
  | nil => intro seen; simp [dedupGo, firstOccurrenceFilter]
  | cons t rest ih =>
    intro seen
    rw [dedupGo, List.filter_cons]
    by_cases h : t.url ∈ seen
    · rw [if_pos h, if_neg (by simp [h]), ih seen]
    · rw [if_neg h, if_pos (by simp [h]), ih (t.url :: seen)]
      rw [firstOccurrenceFilter, List.filter_filter]
      congr 1
      congr 1
      apply List.filter_congr
      intro a _
      by_cases ha : a.url = t.url
      · simp [ha]
      · by_cases hs : a.url ∈ seen <;> simp [ha, hs]

/-- First-occurrence filtering only keeps elements of its input. -/
theorem firstOccurrenceFilter_subset (l : List TrackDTO) :
    firstOccurrenceFilter l ⊆ l := by
  induction l using firstOccurrenceFilter.induct with
  | case1 => rw [firstOccurrenceFilter]; exact fun a ha => ha
  | case2 t rest ih =>
    rw [firstOccurrenceFilter]
    intro a ha
    rcases List.mem_cons.mp ha with ha | ha
    · exact ha ▸ List.mem_cons_self _ _
    · exact List.mem_cons_of_mem _ (List.mem_of_mem_filter (ih ha))

/-- First-occurrence filtering leaves no duplicate URLs. -/
theorem firstOccurrenceFilter_nodup (l : List TrackDTO) :
    ((firstOccurrenceFilter l).map TrackDTO.url).Nodup := by
  induction l using firstOccurrenceFilter.induct with
  | case1 => rw [firstOccurrenceFilter]; exact List.nodup_nil
  | case2 t rest ih =>
    rw [firstOccurrenceFilter, List.map_cons]
    refine List.Nodup.cons ?_ ih
    intro hmem
    rcases List.mem_map.mp hmem with ⟨a, ha, hurl⟩
    have ha2 := firstOccurrenceFilter_subset _ ha
    have := (List.mem_filter.mp ha2).2
    rw [hurl] at this
    simp at this

/-- C3: on every non-empty playlist the curated selection succeeds and
equals the first-occurrence URL deduplication of: the first-listed track
verbatim (for arbitrary score fields), then the top-limit tracks of the
remainder by engagement_score_alt, by engagement_score_log, and by raw
view_count; the anchor heads the output, and the output has no
duplicate URLs. -/
theorem curated_selection_structure (t0 : TrackDTO) (rest : List TrackDTO) (limit : ℕ) :
    curated_selection (t0 :: rest) limit =
      some (firstOccurrenceFilter
        ([t0] ++ (select_curated_tracks rest limit).1
              ++ (select_curated_tracks rest limit).2.1
              ++ (select_curated_tracks rest limit).2.2)) ∧
    (firstOccurrenceFilter
        ([t0] ++ (select_curated_tracks rest limit).1
              ++ (select_curated_tracks rest limit).2.1
              ++ (select_curated_tracks rest limit).2.2)).head? = some t0 ∧
    ((firstOccurrenceFilter
        ([t0] ++ (select_curated_tracks rest limit).1
              ++ (select_curated_tracks rest limit).2.1
              ++ (select_curated_tracks rest limit).2.2)).map TrackDTO.url).Nodup := by
  refine ⟨?_, ?_, firstOccurrenceFilter_nodup _⟩
  · rw [curated_selection]
    rw [dedupGo_eq]
    congr 2
    simp
  · have h : ([t0] ++ (select_curated_tracks rest limit).1
              ++ (select_curated_tracks rest limit).2.1
              ++ (select_curated_tracks rest limit).2.2) =
        t0 :: ((select_curated_tracks rest limit).1
              ++ (select_curated_tracks rest limit).2.1
              ++ (select_curated_tracks rest limit).2.2) := by simp
    rw [h, firstOccurrenceFilter]
    rfl

end BFX
